import Mathlib

/-!
Shallow embedding of the trap-and-dispatch core of the `simple_hv` exercise
(`src/arceos/exercises/simple_hv/src/main.rs`): guest context preparation,
second-stage translation installation, the VM-entry run loop, and the
`vmexit_handler` trap dispatcher.

Machine integers (`usize`) are modelled as `Nat`; the one arithmetic
operation that can overflow in the source (`sepc += 4`) is taken modulo
`2 ^ 64`.  External collaborators that live outside the shown source
(the firmware-call decoder, the address-space primitives, the privileged
register interface) are modelled from the specification's description of
their interfaces; each such definition carries a doc comment saying so.
-/

/-- `usize` width of the rv64 target. -/
def USIZE_BITS : Nat := 64

/-- Page size, `PAGE_SIZE_4K` in the source. -/
def PAGE_SIZE_4K : Nat := 4096

/-- `VirtAddr::align_down_4k`: align an address down to a 4 KiB boundary. -/
def align_down_4k (a : Nat) : Nat := a / 4096 * 4096

/-- General-purpose register index.  Modelled from the spec: the register
file is "an ordered set of general-purpose register slots indexed by a fixed
enumeration of register roles"; rv64 has 32 GPRs. -/
def GprIndex : Type := Fin 32

instance : DecidableEq GprIndex := instDecidableEqFin 32

/-- Modelled from the spec: `A0` is the first argument register of the
firmware-call convention (`x10` in the RISC-V ABI). -/
def A0 : GprIndex := ⟨10, by decide⟩

/-- Modelled from the spec: `A1` is the second argument register of the
firmware-call convention (`x11` in the RISC-V ABI). -/
def A1 : GprIndex := ⟨11, by decide⟩

/-- The guest register state stored in the context: general-purpose
registers, `sepc`, `hstatus`, `sstatus` (the fields of the context that
`main.rs` reads or writes). -/
structure GuestRegs where
  gprs : GprIndex → Nat
  sepc : Nat
  hstatus : Nat
  sstatus : Nat

/-- `GeneralPurposeRegisters::set_reg`: update one register slot. -/
def setReg (g : GprIndex → Nat) (i : GprIndex) (v : Nat) : GprIndex → Nat :=
  fun j => if j = i then v else g j

/-- `VmCpuRegisters`: the guest context record owned by the run loop.
Only the `guest_regs` part is touched by the shown core. -/
structure VmCpuRegisters where
  guest_regs : GuestRegs

/-- Stage-2 mapping permissions; the fields mirror the `MappingFlags` bits
used at the call site (`READ | WRITE | USER`, execute not requested). -/
structure MappingFlags where
  read : Bool
  write : Bool
  execute : Bool
  user : Bool
deriving DecidableEq

/-- The second-stage address space: its translation root, the per-page
mapping state (indexed by page number, `none` = unbacked) and the byte
contents of guest-physical memory. -/
structure AddrSpace where
  root : Nat
  mapping : Nat → Option MappingFlags
  mem : Nat → Nat

/-- Modelled from the spec: `AddrSpace::map_alloc` is the external
address-space primitive "map_and_back(address, size, permissions,
zero_fill)"; it backs every page of `[start, start+size)` with the given
permissions and, when `zeroFill` is set, zero-fills the backed range. -/
def AddrSpace.map_alloc (us : AddrSpace) (start size : Nat)
    (fl : MappingFlags) (zeroFill : Bool) : AddrSpace :=
  { us with
    mapping := fun p =>
      if start / 4096 ≤ p ∧ p < (start + size) / 4096 then some fl
      else us.mapping p
    mem := fun x =>
      if zeroFill ∧ start ≤ x ∧ x < start + size then 0 else us.mem x }

/-- Modelled from the spec: `AddrSpace::write` is the external primitive
"write(address, bytes)", assumed "infallible-or-panicking" by the core; it
stores the byte list at consecutive addresses starting at `start`. -/
def AddrSpace.write (us : AddrSpace) (start : Nat) (buf : List Nat) :
    AddrSpace :=
  { us with
    mem := fun x =>
      if start ≤ x ∧ x < start + buf.length then buf.getD (x - start) 0
      else us.mem x }

/-- The raw little-endian bytes of a `usize` value, as produced by
`core::slice::from_raw_parts(&magic as *const usize as *const _, 8)`. -/
def usizeBytes (v : Nat) : List Nat :=
  (List.range 8).map fun i => v / 256 ^ i % 256

/-- Read 8 bytes little-endian from memory (how the guest sees the
`usize` stored at an address). -/
def read8LE (m : Nat → Nat) (a : Nat) : Nat :=
  m a + m (a + 1) * 0x100 + m (a + 2) * 0x10000 + m (a + 3) * 0x1000000 +
  m (a + 4) * 0x100000000 + m (a + 5) * 0x10000000000 +
  m (a + 6) * 0x1000000000000 + m (a + 7) * 0x100000000000000

/-- The trap causes distinguished by the `match scause.cause()` in
`vmexit_handler`; every cause outside the three named arms is collapsed by
the source's `_` arm and carried here as a raw cause code. -/
inductive Trap where
  | VirtualSupervisorEnvCall
  | IllegalInstruction
  | LoadGuestPageFault
  | other (cause : Nat)
deriving DecidableEq

/-- Modelled from the spec: the firmware-call decoder's output type, "a
variant type ... variants include Reset(code) and an open set of
not-yet-implemented requests". -/
inductive SbiMessage where
  | Reset (code : Nat)
  | Unimplemented (tag : Nat)
deriving DecidableEq

/-- The ways the dispatcher can abort the whole process: a failed
`assert_eq!`, the `todo!()` arm, the "bad sbi message!" panic, and the
unhandled-trap panic (which reports cause, `sepc` and `stval`). -/
inductive FatalKind where
  | assertFailed (left right : Nat)
  | todoUnimplemented
  | badSbiMessage
  | unhandledTrap (cause : Nat) (sepc stvalV : Nat)
deriving DecidableEq

/-- Result of one dispatch: either the handler returns normally with a
terminate flag and the (possibly updated) context and address space, or it
panics. -/
inductive HandlerResult where
  | ok (terminate : Bool) (ctx : VmCpuRegisters) (uspace : AddrSpace)
  | fatal (k : FatalKind)

/-- The LoadGuestPageFault service from `vmexit_handler`: back the 4 KiB
page containing the faulting address with READ|WRITE|USER (zero-filled),
then write the 8 raw bytes of `0x6688usize` at the faulting address. -/
def pageFaultService (addr : Nat) (uspace : AddrSpace) : AddrSpace :=
  (uspace.map_alloc (align_down_4k addr) PAGE_SIZE_4K
    ⟨true, true, false, true⟩ true).write addr (usizeBytes 0x6688)

/-- `vmexit_handler`: classify the trap and execute exactly one policy.
`stvalV` is the trap-value register; `sbiMsg` stands for
`SbiMessage::from_regs(ctx.guest_regs.gprs.a_regs()).ok()`, whose decoder
is an external collaborator. -/
def vmexit_handler (cause : Trap) (stvalV : Nat) (sbiMsg : Option SbiMessage)
    (ctx : VmCpuRegisters) (uspace : AddrSpace) : HandlerResult :=
  match cause with
  | .VirtualSupervisorEnvCall =>
    match sbiMsg with
    | some (SbiMessage.Reset _) =>
      let a0 := ctx.guest_regs.gprs A0
      let a1 := ctx.guest_regs.gprs A1
      if a0 ≠ 0x6688 then .fatal (.assertFailed a0 0x6688)
      else if a1 ≠ 0x1234 then .fatal (.assertFailed a1 0x1234)
      else .ok true ctx uspace
    | some (SbiMessage.Unimplemented _) => .fatal .todoUnimplemented
    | none => .fatal .badSbiMessage
  | .IllegalInstruction =>
    let g := ctx.guest_regs
    .ok false
      { ctx with
        guest_regs :=
          { g with
            sepc := (g.sepc + 4) % 2 ^ USIZE_BITS
            gprs := setReg g.gprs A1 0x1234 } }
      uspace
  | .LoadGuestPageFault =>
    .ok false ctx (pageFaultService stvalV uspace)
  | .other c =>
    .fatal (.unhandledTrap c ctx.guest_regs.sepc stvalV)

/-- `VM_ENTRY`: the fixed guest entry address. -/
def VM_ENTRY : Nat := 0x80200000

/-- Modelled from the spec: the "target privilege is guest" flag of the
hypervisor-status register (`hstatus.SPV`, bit 7 of rv64 `hstatus`). -/
def HSTATUS_SPV : Nat := 2 ^ 7

/-- Modelled from the spec: the "guest-mode-memory-accessible-from-host"
flag (`hstatus.SPVP`, bit 8 of rv64 `hstatus`). -/
def HSTATUS_SPVP : Nat := 2 ^ 8

/-- Modelled from the spec: the "previous privilege was supervisor" flag
(`sstatus.SPP`, bit 8 of rv64 `sstatus`). -/
def SSTATUS_SPP : Nat := 2 ^ 8

/-- `prepare_guest_context`: read the live `hstatus`, set SPV and SPVP,
write the modified value back to the live CSR and into the context; set SPP
in the context's `sstatus` copy (the live `sstatus` is not written back);
point the context's `sepc` at `VM_ENTRY`.  Total: no error path.
`hstatusLive` and `sstatusLive` are the CSR values read; the returned `Nat`
is the value written to the live `hstatus` CSR. -/
def prepare_guest_context (hstatusLive sstatusLive : Nat)
    (ctx : VmCpuRegisters) : Nat × VmCpuRegisters :=
  let h := hstatusLive ||| HSTATUS_SPV ||| HSTATUS_SPVP
  let s := sstatusLive ||| SSTATUS_SPP
  (h,
   { ctx with
     guest_regs :=
       { ctx.guest_regs with hstatus := h, sstatus := s, sepc := VM_ENTRY } })

/-- The `hgatp` control value computed by `prepare_vm_pgtable`:
`8usize << 60 | usize::from(ept_root) >> 12` (mode selector Sv39x4 packed
with the root's physical page number). -/
def hgatpValue (ept_root : Nat) : Nat := 8 <<< 60 ||| ept_root >>> 12

/-- Observable privileged-state events of the run, in program order:
context preparation, the `csrw hgatp` write, the global second-stage fence
(`hfence_gvma_all`), each VM-entry, and process termination (the success
report after the loop, or a panic). -/
inductive Event where
  | prepareContext
  | writeHgatp (v : Nat)
  | hfenceGvmaAll
  | vmEntry
  | reportSuccess
  | fatalStop
deriving DecidableEq

/-- Is this event a VM-entry? -/
def Event.isVmEntry : Event → Bool
  | .vmEntry => true
  | _ => false

/-- Is this event the `hgatp` root installation write? -/
def Event.isWriteHgatp : Event → Bool
  | .writeHgatp _ => true
  | _ => false

/-- Is this event the guest context preparation? -/
def Event.isPrepare : Event → Bool
  | .prepareContext => true
  | _ => false

/-- Is this event the global second-stage fence? -/
def Event.isFence : Event → Bool
  | .hfenceGvmaAll => true
  | _ => false

/-- `prepare_vm_pgtable` as its event sequence: write the packed root
value to `hgatp`, then `hfence_gvma_all`, in that order. -/
def prepare_vm_pgtable_events (ept_root : Nat) : List Event :=
  [.writeHgatp (hgatpValue ept_root), .hfenceGvmaAll]

/-- What the hardware reports at one VM-exit: the trap cause, the
trap-value register, the firmware-call decoder's output for the guest's
argument registers at that point, and the guest context saved by
`_run_guest`.  This is the oracle for the external VM-entry primitive:
the guest may have changed its own registers arbitrarily while running. -/
structure TrapInfo where
  cause : Trap
  stvalV : Nat
  sbiMsg : Option SbiMessage
  ctxAtTrap : VmCpuRegisters

/-- `run_guest`: one VM-entry followed by the dispatcher, given the trap
the hardware delivers. -/
def run_guest (t : TrapInfo) (uspace : AddrSpace) : HandlerResult :=
  vmexit_handler t.cause t.stvalV t.sbiMsg t.ctxAtTrap uspace

/-- Outcome of the `while !run_guest(..) {}` loop: the guest shut down
normally (followed by the success report), a handler panic aborted the
process, or the trap script ran out with the guest still running. -/
inductive LoopOutcome where
  | success
  | fatalStop (k : FatalKind)
  | stillRunning
deriving DecidableEq

/-- The `while !run_guest(&mut ctx, &mut uspace) {}` loop over a script of
traps: re-enter while the step returns `false`, stop at the first `true`
(or at a panic). -/
def runLoop : List TrapInfo → AddrSpace → LoopOutcome
  | [], _ => .stillRunning
  | t :: ts, us =>
    match run_guest t us with
    | .fatal k => .fatalStop k
    | .ok true _ _ => .success
    | .ok false _ us' => runLoop ts us'

/-- The events of the loop: each iteration is one VM-entry; a terminating
step is followed by the success report (`panic!("Hypervisor ok!")` after
the loop), a panicking step by the fatal stop; a `false` step re-enters. -/
def loopEvents : List TrapInfo → AddrSpace → List Event
  | [], _ => []
  | t :: ts, us =>
    .vmEntry ::
      match run_guest t us with
      | .fatal _ => [.fatalStop]
      | .ok true _ _ => [.reportSuccess]
      | .ok false _ us' => loopEvents ts us'

/-- The event sequence of `main` from a successful image load on: prepare
the guest context once, install the translation root of the address space
once (`prepare_vm_pgtable(uspace.page_table_root())`), then run the loop. -/
def mainEvents (traps : List TrapInfo) (us : AddrSpace) : List Event :=
  .prepareContext :: (prepare_vm_pgtable_events us.root ++ loopEvents traps us)

/-- Modelled from the spec: the second-stage translation state visible to
the guest — the `hgatp` control register and the translation cache (a list
of cached guest-page translations, emptied by a global invalidate). -/
structure S2State where
  hgatp : Nat
  cache : List (Nat × Nat)
deriving DecidableEq

/-- Modelled from the spec: effect of one privileged-state event on the
second-stage translation state (`csrw hgatp` replaces the register;
`hfence_gvma_all` empties the cache; nothing else touches it). -/
def applyEvent (s : S2State) (e : Event) : S2State :=
  match e with
  | .writeHgatp v => { s with hgatp := v }
  | .hfenceGvmaAll => { s with cache := [] }
  | _ => s

/-- Run a sequence of events over the second-stage translation state. -/
def applyEvents (s : S2State) (es : List Event) : S2State :=
  es.foldl applyEvent s

/-! ## Helper lemmas -/

theorem write_mem_in (us : AddrSpace) (start : Nat) (buf : List Nat)
    (i : Nat) (h : i < buf.length) :
    (us.write start buf).mem (start + i) = buf.getD i 0 := by
  unfold AddrSpace.write
  simp only
  rw [if_pos ⟨Nat.le_add_right _ _, by omega⟩]
  congr 1
  omega

theorem write_mem_out (us : AddrSpace) (start : Nat) (buf : List Nat)
    (x : Nat) (h : x < start ∨ start + buf.length ≤ x) :
    (us.write start buf).mem x = us.mem x := by
  unfold AddrSpace.write
  simp only
  rw [if_neg]
  omega

theorem write_mapping (us : AddrSpace) (start : Nat) (buf : List Nat) :
    (us.write start buf).mapping = us.mapping := rfl

theorem map_alloc_mem_zero (us : AddrSpace) (start size : Nat)
    (fl : MappingFlags) (x : Nat) (h1 : start ≤ x) (h2 : x < start + size) :
    (us.map_alloc start size fl true).mem x = 0 := by
  unfold AddrSpace.map_alloc
  simp only
  rw [if_pos ⟨by trivial, h1, h2⟩]

theorem map_alloc_mapping_in (us : AddrSpace) (start size : Nat)
    (fl : MappingFlags) (zf : Bool) (p : Nat)
    (h1 : start / 4096 ≤ p) (h2 : p < (start + size) / 4096) :
    (us.map_alloc start size fl zf).mapping p = some fl := by
  unfold AddrSpace.map_alloc
  simp only
  rw [if_pos ⟨h1, h2⟩]

theorem map_alloc_mapping_out (us : AddrSpace) (start size : Nat)
    (fl : MappingFlags) (zf : Bool) (p : Nat)
    (h : p < start / 4096 ∨ (start + size) / 4096 ≤ p) :
    (us.map_alloc start size fl zf).mapping p = us.mapping p := by
  unfold AddrSpace.map_alloc
  simp only
  rw [if_neg]
  omega

theorem align_down_4k_div (a : Nat) : align_down_4k a / 4096 = a / 4096 := by
  unfold align_down_4k
  omega

theorem align_down_4k_add_page_div (a : Nat) :
    (align_down_4k a + 4096) / 4096 = a / 4096 + 1 := by
  unfold align_down_4k
  omega

theorem usizeBytes_length (v : Nat) : (usizeBytes v).length = 8 := by
  unfold usizeBytes
  simp

theorem usizeBytes_magic :
    usizeBytes 0x6688 = [0x88, 0x66, 0, 0, 0, 0, 0, 0] := rfl

theorem pageFaultService_mem_in (a : Nat) (us : AddrSpace) (i : Nat)
    (h : i < 8) :
    (pageFaultService a us).mem (a + i) = (usizeBytes 0x6688).getD i 0 := by
  unfold pageFaultService
  exact write_mem_in _ a _ i (by rw [usizeBytes_length]; exact h)

theorem pageFaultService_read8LE (a : Nat) (us : AddrSpace) :
    read8LE (pageFaultService a us).mem a = 0x6688 := by
  have h0 := pageFaultService_mem_in a us 0 (by omega)
  have h1 := pageFaultService_mem_in a us 1 (by omega)
  have h2 := pageFaultService_mem_in a us 2 (by omega)
  have h3 := pageFaultService_mem_in a us 3 (by omega)
  have h4 := pageFaultService_mem_in a us 4 (by omega)
  have h5 := pageFaultService_mem_in a us 5 (by omega)
  have h6 := pageFaultService_mem_in a us 6 (by omega)
  have h7 := pageFaultService_mem_in a us 7 (by omega)
  simp only [usizeBytes_magic, List.getD, Nat.add_zero,
    List.get?] at h0 h1 h2 h3 h4 h5 h6 h7
  unfold read8LE
  rw [h0, h1, h2, h3, h4, h5, h6, h7]
  norm_num

theorem pageFaultService_mapping_self (a : Nat) (us : AddrSpace) :
    (pageFaultService a us).mapping (a / 4096) =
      some ⟨true, true, false, true⟩ := by
  unfold pageFaultService
  rw [write_mapping]
  refine map_alloc_mapping_in _ _ _ _ _ _ ?_ ?_
  · rw [align_down_4k_div]
  · show a / 4096 < (align_down_4k a + PAGE_SIZE_4K) / 4096
    rw [show PAGE_SIZE_4K = 4096 from rfl, align_down_4k_add_page_div]
    omega

theorem loopEvents_countP_zero (p : Event → Bool)
    (hv : p .vmEntry = false) (hs : p .reportSuccess = false)
    (hf : p .fatalStop = false) :
    ∀ (ts : List TrapInfo) (us : AddrSpace),
      List.countP p (loopEvents ts us) = 0 := by
  intro ts
  induction ts with
  | nil => intro us; simp [loopEvents]
  | cons t ts ih =>
    intro us
    rw [loopEvents]
    cases hr : run_guest t us with
    | fatal k => simp [hr, List.countP_cons, hv, hf]
    | ok b ctx' us' =>
      cases b with
      | false => simp [hr, List.countP_cons, hv, ih]
      | true => simp [hr, List.countP_cons, hv, hs]

theorem mainEvents_firstVmEntry (traps : List TrapInfo) (us : AddrSpace) :
    (mainEvents traps us).findIdx Event.isVmEntry = 3 := by
  cases traps with
  | nil =>
    simp [mainEvents, prepare_vm_pgtable_events, loopEvents,
      List.findIdx_cons, Event.isVmEntry]
  | cons t ts =>
    rw [mainEvents, prepare_vm_pgtable_events, loopEvents]
    simp [List.findIdx_cons, Event.isVmEntry]

/-! ## Claims -/

/-- C1: on a LoadGuestPageFault trap with faulting address `a`, the
dispatcher resumes (returns `false`) with the context — in particular
`sepc` — unchanged, having backed the 4096-byte page containing
`align_down(a, 4096)` with read/write/user permissions and written the
8-byte sentinel `0x6688usize` at address `a` (reading 8 bytes
little-endian at `a` yields `0x6688`). -/
theorem C1_load_guest_page_fault_serviced (a : Nat) (msg : Option SbiMessage)
    (ctx : VmCpuRegisters) (us : AddrSpace) :
    vmexit_handler Trap.LoadGuestPageFault a msg ctx us =
      HandlerResult.ok false ctx (pageFaultService a us) ∧
    (pageFaultService a us).mapping (a / 4096) =
      some ⟨true, true, false, true⟩ ∧
    read8LE (pageFaultService a us).mem a = 0x6688 :=
  ⟨rfl, pageFaultService_mapping_self a us, pageFaultService_read8LE a us⟩

/-- C2: on an IllegalInstruction trap the dispatcher resumes (returns
`false`) with `sepc` advanced by exactly 4 (as `usize` addition), `A1`
holding the sentinel `0x1234`, and every other guest register — the other
GPRs, `hstatus`, `sstatus` — unchanged. -/
theorem C2_illegal_instruction_skip (stvalV : Nat) (msg : Option SbiMessage)
    (ctx : VmCpuRegisters) (us : AddrSpace) :
    ∃ ctx' : VmCpuRegisters,
      vmexit_handler Trap.IllegalInstruction stvalV msg ctx us =
        HandlerResult.ok false ctx' us ∧
      ctx'.guest_regs.sepc = (ctx.guest_regs.sepc + 4) % 2 ^ USIZE_BITS ∧
      (∀ i : GprIndex, ctx'.guest_regs.gprs i =
        if i = A1 then 0x1234 else ctx.guest_regs.gprs i) ∧
      ctx'.guest_regs.hstatus = ctx.guest_regs.hstatus ∧
      ctx'.guest_regs.sstatus = ctx.guest_regs.sstatus := by
  refine ⟨_, rfl, rfl, fun i => ?_, rfl, rfl⟩
  unfold setReg
  rfl

/-- C4: every trap cause outside the three handled categories is fatal:
the dispatcher ends in the unhandled-trap panic carrying the raw cause,
the guest resumption address (`sepc`) and the trap value, and never
returns a resume result. -/
theorem C4_unhandled_trap_fatal (c stvalV : Nat) (msg : Option SbiMessage)
    (ctx : VmCpuRegisters) (us : AddrSpace) :
    vmexit_handler (Trap.other c) stvalV msg ctx us =
      HandlerResult.fatal
        (FatalKind.unhandledTrap c ctx.guest_regs.sepc stvalV) := rfl

/-- C5: guest context preparation writes the same modified
hypervisor-status value to the live CSR and to the context's `hstatus`
field (write-through equal), with the SPV (bit 7) and SPVP (bit 8) flags
set; it sets SPP (bit 8) in the context's `sstatus` field; and it points
the context's `sepc` at the fixed guest entry address `0x80200000`.  It
is a total function: there is no error path. -/
theorem C5_prepare_guest_context_flags (hl sl : Nat) (ctx : VmCpuRegisters) :
    (prepare_guest_context hl sl ctx).1 =
      (prepare_guest_context hl sl ctx).2.guest_regs.hstatus ∧
    Nat.testBit (prepare_guest_context hl sl ctx).2.guest_regs.hstatus 7 =
      true ∧
    Nat.testBit (prepare_guest_context hl sl ctx).2.guest_regs.hstatus 8 =
      true ∧
    Nat.testBit (prepare_guest_context hl sl ctx).2.guest_regs.sstatus 8 =
      true ∧
    (prepare_guest_context hl sl ctx).2.guest_regs.sepc = VM_ENTRY ∧
    VM_ENTRY = 0x80200000 := by
  refine ⟨rfl, ?_, ?_, ?_, rfl, rfl⟩ <;>
    simp [prepare_guest_context, HSTATUS_SPV, HSTATUS_SPVP, SSTATUS_SPP,
      Nat.testBit_or, show Nat.testBit 128 7 = true from by decide,
      show Nat.testBit 256 8 = true from by decide]

/-- C3: on an EnvironmentCall trap decoded as `Reset`, the dispatcher
returns the terminate signal (`true`, context and address space untouched)
if and only if `A0 = 0x6688` and `A1 = 0x1234`; a mismatched `A0` or `A1`
ends in the corresponding failed assertion, a non-Reset variant ends in
the `todo!()` panic, and an undecodable payload ends in the
"bad sbi message" panic — none of these resumes or retries. -/
theorem C3_reset_sentinel_check (stvalV code : Nat) (ctx : VmCpuRegisters)
    (us : AddrSpace) :
    (ctx.guest_regs.gprs A0 = 0x6688 → ctx.guest_regs.gprs A1 = 0x1234 →
      vmexit_handler Trap.VirtualSupervisorEnvCall stvalV
          (some (SbiMessage.Reset code)) ctx us =
        HandlerResult.ok true ctx us) ∧
    (ctx.guest_regs.gprs A0 ≠ 0x6688 →
      vmexit_handler Trap.VirtualSupervisorEnvCall stvalV
          (some (SbiMessage.Reset code)) ctx us =
        HandlerResult.fatal
          (FatalKind.assertFailed (ctx.guest_regs.gprs A0) 0x6688)) ∧
    (ctx.guest_regs.gprs A0 = 0x6688 → ctx.guest_regs.gprs A1 ≠ 0x1234 →
      vmexit_handler Trap.VirtualSupervisorEnvCall stvalV
          (some (SbiMessage.Reset code)) ctx us =
        HandlerResult.fatal
          (FatalKind.assertFailed (ctx.guest_regs.gprs A1) 0x1234)) ∧
    (∀ tag : Nat,
      vmexit_handler Trap.VirtualSupervisorEnvCall stvalV
          (some (SbiMessage.Unimplemented tag)) ctx us =
        HandlerResult.fatal FatalKind.todoUnimplemented) ∧
    (vmexit_handler Trap.VirtualSupervisorEnvCall stvalV none ctx us =
      HandlerResult.fatal FatalKind.badSbiMessage) := by
  refine ⟨?_, ?_, ?_, fun tag => rfl, rfl⟩
  · intro h0 h1
    unfold vmexit_handler
    simp [h0, h1]
  · intro h0
    unfold vmexit_handler
    simp [h0]
  · intro h0 h1
    unfold vmexit_handler
    simp [h0, h1]

/-- Witness for C3 at concrete inputs: the sentinel pair terminates
normally; `A0 = 7` fails the first assertion. -/
theorem C3_reset_sentinel_check_witness :
    vmexit_handler Trap.VirtualSupervisorEnvCall 0 (some (SbiMessage.Reset 0))
        ⟨⟨fun i => if i = A0 then 0x6688 else 0x1234, 0, 0, 0⟩⟩
        ⟨0, fun _ => none, fun _ => 0⟩ =
      HandlerResult.ok true
        ⟨⟨fun i => if i = A0 then 0x6688 else 0x1234, 0, 0, 0⟩⟩
        ⟨0, fun _ => none, fun _ => 0⟩ ∧
    vmexit_handler Trap.VirtualSupervisorEnvCall 0 (some (SbiMessage.Reset 0))
        ⟨⟨fun _ => 7, 0, 0, 0⟩⟩ ⟨0, fun _ => none, fun _ => 0⟩ =
      HandlerResult.fatal (FatalKind.assertFailed 7 0x6688) :=
  ⟨(C3_reset_sentinel_check 0 0
      ⟨⟨fun i => if i = A0 then 0x6688 else 0x1234, 0, 0, 0⟩⟩
      ⟨0, fun _ => none, fun _ => 0⟩).1 (by simp) (by simp [A1, A0]; decide),
   (C3_reset_sentinel_check 0 0 ⟨⟨fun _ => 7, 0, 0, 0⟩⟩
      ⟨0, fun _ => none, fun _ => 0⟩).2.1 (by decide)⟩

/-- C6: the run computes the `hgatp` value by packing mode selector 8
(shifted to the top field) with the root physical page number (root shifted
right by 12), writes it to `hgatp` (event index 1), fences immediately
after (event index 2), and the first VM-entry can only come later (the
first VM-entry index in the event sequence is 3). -/
theorem C6_hgatp_then_fence_before_entry (traps : List TrapInfo)
    (us : AddrSpace) :
    (mainEvents traps us).get? 1 =
      some (Event.writeHgatp (hgatpValue us.root)) ∧
    (mainEvents traps us).get? 2 = some Event.hfenceGvmaAll ∧
    (mainEvents traps us).findIdx Event.isVmEntry = 3 ∧
    hgatpValue us.root = 8 <<< 60 ||| us.root >>> 12 :=
  ⟨rfl, rfl, mainEvents_firstVmEntry traps us, rfl⟩

/-- C7: the run prepares the guest context exactly once and installs the
translation root (write + fence) exactly once, all before the first
VM-entry (which is at event index 3); each loop step is one VM-entry plus
dispatch, a step returning `true` terminates the loop and reports success
with no further VM-entries, and a step returning `false` re-enters the
guest on the remaining script. -/
theorem C7_run_loop_structure (traps : List TrapInfo) (us : AddrSpace)
    (t : TrapInfo) (ts : List TrapInfo) (ctx' : VmCpuRegisters)
    (us' : AddrSpace) :
    (List.countP Event.isPrepare (mainEvents traps us) = 1 ∧
     List.countP Event.isWriteHgatp (mainEvents traps us) = 1 ∧
     List.countP Event.isFence (mainEvents traps us) = 1 ∧
     (mainEvents traps us).findIdx Event.isVmEntry = 3) ∧
    (run_guest t us = HandlerResult.ok true ctx' us' →
      runLoop (t :: ts) us = LoopOutcome.success ∧
      loopEvents (t :: ts) us = [Event.vmEntry, Event.reportSuccess]) ∧
    (run_guest t us = HandlerResult.ok false ctx' us' →
      runLoop (t :: ts) us = runLoop ts us' ∧
      loopEvents (t :: ts) us = Event.vmEntry :: loopEvents ts us') := by
  refine ⟨⟨?_, ?_, ?_, mainEvents_firstVmEntry traps us⟩, ?_, ?_⟩
  · have hz := loopEvents_countP_zero Event.isPrepare rfl rfl rfl traps us
    simp [mainEvents, prepare_vm_pgtable_events, List.countP_cons, hz,
      Event.isPrepare]
  · have hz := loopEvents_countP_zero Event.isWriteHgatp rfl rfl rfl traps us
    simp [mainEvents, prepare_vm_pgtable_events, List.countP_cons, hz,
      Event.isWriteHgatp]
  · have hz := loopEvents_countP_zero Event.isFence rfl rfl rfl traps us
    simp [mainEvents, prepare_vm_pgtable_events, List.countP_cons, hz,
      Event.isFence]
  · intro h
    rw [runLoop, loopEvents, h]
    exact ⟨rfl, rfl⟩
  · intro h
    rw [runLoop, loopEvents, h]
    exact ⟨rfl, rfl⟩

/-- Witness for C7 at concrete inputs: a Reset trap with the sentinel
arguments terminates the loop; an IllegalInstruction trap re-enters. -/
theorem C7_run_loop_structure_witness :
    (runLoop
        [⟨Trap.VirtualSupervisorEnvCall, 0, some (SbiMessage.Reset 0),
          ⟨⟨fun i => if i = A0 then 0x6688 else 0x1234, 0, 0, 0⟩⟩⟩]
        ⟨0, fun _ => none, fun _ => 0⟩ = LoopOutcome.success) ∧
    (runLoop
        [⟨Trap.IllegalInstruction, 0, none, ⟨⟨fun _ => 0, 0, 0, 0⟩⟩⟩]
        ⟨0, fun _ => none, fun _ => 0⟩ =
      runLoop [] ⟨0, fun _ => none, fun _ => 0⟩) :=
  ⟨((C7_run_loop_structure []
      ⟨0, fun _ => none, fun _ => 0⟩
      ⟨Trap.VirtualSupervisorEnvCall, 0, some (SbiMessage.Reset 0),
        ⟨⟨fun i => if i = A0 then 0x6688 else 0x1234, 0, 0, 0⟩⟩⟩ []
      ⟨⟨fun i => if i = A0 then 0x6688 else 0x1234, 0, 0, 0⟩⟩
      ⟨0, fun _ => none, fun _ => 0⟩).2.1
        (by simp [run_guest, vmexit_handler, A0, A1]; decide)).1,
   ((C7_run_loop_structure []
      ⟨0, fun _ => none, fun _ => 0⟩
      ⟨Trap.IllegalInstruction, 0, none, ⟨⟨fun _ => 0, 0, 0, 0⟩⟩⟩ []
      ⟨⟨setReg (fun _ => 0) A1 0x1234, (0 + 4) % 2 ^ USIZE_BITS, 0, 0⟩⟩
      ⟨0, fun _ => none, fun _ => 0⟩).2.2 rfl).1⟩

/-- C9: after the page-fault service for faulting address `a`, every byte
of the newly backed page other than the 8 sentinel bytes written at `a`
is zero (the page is backed zero-filled before the sentinel write). -/
theorem C9_backed_page_zero_filled (a : Nat) (us : AddrSpace) (x : Nat)
    (h1 : align_down_4k a ≤ x) (h2 : x < align_down_4k a + 4096)
    (h3 : x < a ∨ a + 8 ≤ x) :
    (pageFaultService a us).mem x = 0 := by
  unfold pageFaultService
  rw [write_mem_out _ _ _ _ (by rw [usizeBytes_length]; omega)]
  exact map_alloc_mem_zero _ _ _ _ _ h1 h2

/-- Witness for C9: service at `a = 8292`; the page base byte 8192 is
zero. -/
theorem C9_backed_page_zero_filled_witness :
    (align_down_4k 8292 ≤ 8192 ∧ 8192 < align_down_4k 8292 + 4096 ∧
      (8192 < 8292 ∨ 8292 + 8 ≤ 8192)) ∧
    (pageFaultService 8292 ⟨0, fun _ => none, fun _ => 0xAA⟩).mem 8192 = 0 :=
  ⟨⟨by decide, by decide, Or.inl (by decide)⟩,
   C9_backed_page_zero_filled 8292 ⟨0, fun _ => none, fun _ => 0xAA⟩ 8192
     (by decide) (by decide) (Or.inl (by decide))⟩

/-- C10: the page-fault service writes its sentinel at the unaligned
faulting address `a` itself (the first sentinel byte `0x88` lands at `a`,
wherever it falls in the page); whenever the page offset of `a` exceeds
4088, the 8-byte write extends past the end of the single newly backed
page — its last byte lands in the following page, whose mapping the
service did not touch (so it is possibly unbacked). -/
theorem C10_sentinel_write_can_cross_page (a : Nat) (us : AddrSpace) :
    (pageFaultService a us).mem a = 0x88 ∧
    (a % 4096 > 4088 →
      align_down_4k a + PAGE_SIZE_4K < a + 8 ∧
      (a + 7) / 4096 = a / 4096 + 1 ∧
      (pageFaultService a us).mapping (a / 4096 + 1) =
        us.mapping (a / 4096 + 1)) := by
  constructor
  · have h0 := pageFaultService_mem_in a us 0 (by omega)
    simpa [usizeBytes_magic] using h0
  · intro h
    refine ⟨?_, by omega, ?_⟩
    · unfold align_down_4k PAGE_SIZE_4K
      omega
    · unfold pageFaultService
      rw [write_mapping]
      refine map_alloc_mapping_out _ _ _ _ _ _ (Or.inr ?_)
      rw [show PAGE_SIZE_4K = 4096 from rfl, align_down_4k_add_page_div]

/-- Witness for C10: at `a = 4089` (page offset 4089 > 4088) the last
sentinel byte lands in page 1, which stays unbacked. -/
theorem C10_sentinel_write_can_cross_page_witness :
    (4089 : Nat) % 4096 > 4088 ∧
    (pageFaultService 4089 ⟨0, fun _ => none, fun _ => 0⟩).mem 4089 = 0x88 ∧
    (align_down_4k 4089 + PAGE_SIZE_4K < 4089 + 8 ∧
      (4089 + 7) / 4096 = 4089 / 4096 + 1 ∧
      (pageFaultService 4089 ⟨0, fun _ => none, fun _ => 0⟩).mapping
          (4089 / 4096 + 1) =
        AddrSpace.mapping ⟨0, fun _ => none, fun _ => 0⟩ (4089 / 4096 + 1)) :=
  ⟨by decide,
   (C10_sentinel_write_can_cross_page 4089 ⟨0, fun _ => none, fun _ => 0⟩).1,
   (C10_sentinel_write_can_cross_page 4089
      ⟨0, fun _ => none, fun _ => 0⟩).2 (by decide)⟩

/-- C8: installing the translation root and issuing the global
second-stage cache invalidate twice in immediate succession with the same
root leaves the second-stage translation state (`hgatp` value and
translation cache) identical to performing it once. -/
theorem C8_install_idempotent (s : S2State) (ept_root : Nat) :
    applyEvents s
        (prepare_vm_pgtable_events ept_root ++
          prepare_vm_pgtable_events ept_root) =
      applyEvents s (prepare_vm_pgtable_events ept_root) := rfl
